import Mathlib

/-!
Verification of the Books-API test harness (config, test-data generator,
validators, assertion helpers, HTTP client) against its specification.

Python dictionaries are modelled as association lists over a JSON-like
value type; randomness (`random.randint`, Faker outputs) is modelled by
explicit draw parameters; the filesystem and the network transport are
modelled by explicit state/outcome types.
-/

set_option maxRecDepth 4096

/-- JSON-like values exchanged with the API: the payloads the repository
builds and validates are composed of null, booleans, integers, strings,
arrays and string-keyed objects. -/
inductive JVal where
  | jNull : JVal
  | jBool : Bool → JVal
  | jInt : Int → JVal
  | jStr : String → JVal
  | jArr : List JVal → JVal
  | jObj : List (String × JVal) → JVal

mutual

/-- Equality test on JSON values, the `==` Python applies to payload
fields (restricted to the value universe above), with elementwise
comparison of arrays and objects. -/
def JVal.beq : JVal → JVal → Bool
  | .jNull, .jNull => true
  | .jBool a, .jBool b => a == b
  | .jInt a, .jInt b => a == b
  | .jStr a, .jStr b => a == b
  | .jArr xs, .jArr ys => JVal.beqList xs ys
  | .jObj fs, .jObj gs => JVal.beqObj fs gs
  | _, _ => false

def JVal.beqList : List JVal → List JVal → Bool
  | [], [] => true
  | x :: xs, y :: ys => JVal.beq x y && JVal.beqList xs ys
  | _, _ => false

def JVal.beqObj : List (String × JVal) → List (String × JVal) → Bool
  | [], [] => true
  | (k1, v1) :: fs, (k2, v2) :: gs => k1 == k2 && JVal.beq v1 v2 && JVal.beqObj fs gs
  | _, _ => false

end

instance : BEq JVal := ⟨JVal.beq⟩

/-- First-match lookup in an association list, Python dict access. -/
def dictGet (fs : List (String × JVal)) (k : String) : Option JVal :=
  match fs with
  | [] => none
  | (k2, v) :: rest => if k2 = k then some v else dictGet rest k

/-- Python `dict.pop(k, None)`: removes every association for `k`
(a Python dict has at most one). -/
def dictRemove (fs : List (String × JVal)) (k : String) : List (String × JVal) :=
  fs.filter (fun p => p.1 ≠ k)

/-- Python `d[k] = v` on a dict that already holds `k`: the value is
replaced in place; if `k` is new the pair is appended. -/
def dictSet (fs : List (String × JVal)) (k : String) (v : JVal) : List (String × JVal) :=
  match fs with
  | [] => [(k, v)]
  | (k2, w) :: rest => if k2 = k then (k2, v) :: rest else (k2, w) :: dictSet rest k v

/-- Whether a JSON value is an object holding key `k` (Python `k in d`). -/
def hasKey (v : JVal) (k : String) : Bool :=
  match v with
  | .jObj fs => (dictGet fs k).isSome
  | _ => false

/-! ## ISO-8601 parsing, `datetime.fromisoformat`

`BookSchema.validate_publish_date` calls
`datetime.fromisoformat(v.replace('Z', '+00:00'))`.  The parser below
embeds the `fromisoformat` grammar: `YYYY-MM-DD`, optionally followed by
a one-character separator and `HH[:MM[:SS[.fff[fff]]]]`, optionally
followed by an offset `±HH:MM[:SS]`; the date must be a real calendar
date. -/

/-- Decimal digit value of a character, `none` for non-digits. -/
def dv (c : Char) : Option Nat :=
  if 48 ≤ c.toNat ∧ c.toNat ≤ 57 then some (c.toNat - 48) else none

/-- Gregorian leap year, as `calendar.isleap` / `datetime` use it. -/
def isLeap (y : Nat) : Bool :=
  y % 4 = 0 && (y % 100 ≠ 0 || y % 400 = 0)

/-- Days in a month of a given year. -/
def daysInMonth (y m : Nat) : Nat :=
  if m = 2 then (if isLeap y then 29 else 28)
  else if m = 4 ∨ m = 6 ∨ m = 9 ∨ m = 11 then 30
  else 31

/-- A real calendar date with a year `datetime` accepts (year ≥ 1). -/
def validYMD (y m d : Nat) : Bool :=
  1 ≤ y && 1 ≤ m && m ≤ 12 && 1 ≤ d && d ≤ daysInMonth y m

/-- Parse the leading `YYYY-MM-DD` of a character list. -/
def parseDate (cs : List Char) : Option (Nat × Nat × Nat × List Char) :=
  match cs with
  | y1 :: y2 :: y3 :: y4 :: '-' :: m1 :: m2 :: '-' :: d1 :: d2 :: rest =>
    match dv y1, dv y2, dv y3, dv y4, dv m1, dv m2, dv d1, dv d2 with
    | some a, some b, some c, some d, some e, some f, some g, some h =>
      some (((a * 10 + b) * 10 + c) * 10 + d, e * 10 + f, g * 10 + h, rest)
    | _, _, _, _, _, _, _, _ => none
  | _ => none

/-- Split the time text at the first `+`/`-`, which starts the UTC
offset; returns the clock part and the offset part (sign included). -/
def splitTz (cs : List Char) : List Char × List Char :=
  match cs with
  | [] => ([], [])
  | c :: rest =>
    if c = '+' ∨ c = '-' then ([], c :: rest)
    else
      let p := splitTz rest
      (c :: p.1, p.2)

/-- All characters are decimal digits. -/
def allDigits (cs : List Char) : Bool :=
  cs.all (fun c => (dv c).isSome)

/-- The clock part of a `fromisoformat` time: `HH`, `HH:MM`, `HH:MM:SS`
or `HH:MM:SS` with a fraction of exactly 3 or 6 digits. -/
def timeCoreOk (cs : List Char) : Bool :=
  match cs with
  | [h1, h2] =>
    (match dv h1, dv h2 with
     | some a, some b => 10 * a + b ≤ 23
     | _, _ => false)
  | [h1, h2, ':', m1, m2] =>
    (match dv h1, dv h2, dv m1, dv m2 with
     | some a, some b, some c, some d => 10 * a + b ≤ 23 && 10 * c + d ≤ 59
     | _, _, _, _ => false)
  | [h1, h2, ':', m1, m2, ':', s1, s2] =>
    (match dv h1, dv h2, dv m1, dv m2, dv s1, dv s2 with
     | some a, some b, some c, some d, some e, some f =>
       10 * a + b ≤ 23 && 10 * c + d ≤ 59 && 10 * e + f ≤ 59
     | _, _, _, _, _, _ => false)
  | h1 :: h2 :: ':' :: m1 :: m2 :: ':' :: s1 :: s2 :: '.' :: frac =>
    (match dv h1, dv h2, dv m1, dv m2, dv s1, dv s2 with
     | some a, some b, some c, some d, some e, some f =>
       10 * a + b ≤ 23 && 10 * c + d ≤ 59 && 10 * e + f ≤ 59 &&
       (frac.length = 3 || frac.length = 6) && allDigits frac
     | _, _, _, _, _, _ => false)
  | _ => false

/-- A UTC offset: absent, or `±HH:MM` / `±HH:MM:SS` within range. -/
def tzOk (cs : List Char) : Bool :=
  match cs with
  | [] => true
  | _ :: [h1, h2, ':', m1, m2] =>
    (match dv h1, dv h2, dv m1, dv m2 with
     | some a, some b, some c, some d => 10 * a + b ≤ 23 && 10 * c + d ≤ 59
     | _, _, _, _ => false)
  | _ :: [h1, h2, ':', m1, m2, ':', s1, s2] =>
    (match dv h1, dv h2, dv m1, dv m2, dv s1, dv s2 with
     | some a, some b, some c, some d, some e, some f =>
       10 * a + b ≤ 23 && 10 * c + d ≤ 59 && 10 * e + f ≤ 59
     | _, _, _, _, _, _ => false)
  | _ => false

/-- The text after the date: empty, or a one-character separator and a
time with optional offset. -/
def timeOk (cs : List Char) : Bool :=
  match cs with
  | [] => true
  | _sep :: t =>
    let p := splitTz t
    timeCoreOk p.1 && tzOk p.2

/-- `datetime.fromisoformat` succeeds on the character list. -/
def fromisoformatOk (cs : List Char) : Bool :=
  match parseDate cs with
  | none => false
  | some (y, m, d, rest) => validYMD y m d && timeOk rest

/-- Python `s.replace('Z', '+00:00')`: every `Z` becomes `+00:00`. -/
def replaceZ (cs : List Char) : List Char :=
  match cs with
  | [] => []
  | c :: rest =>
    if c = 'Z' then '+' :: '0' :: '0' :: ':' :: '0' :: '0' :: replaceZ rest
    else c :: replaceZ rest

/-- The publish-date validator's acceptance test:
`datetime.fromisoformat(v.replace('Z', '+00:00'))` does not raise. -/
def isoParseableZ (s : String) : Bool :=
  fromisoformatOk (replaceZ s.data)

/-- Python `str.strip()` on a character list: leading and trailing
whitespace removed. -/
def stripList (cs : List Char) : List Char :=
  ((cs.dropWhile Char.isWhitespace).reverse.dropWhile Char.isWhitespace).reverse

/-- Python `str.strip()`. -/
def pyStrip (s : String) : String :=
  ⟨stripList s.data⟩

/-! ## Structural schema check, `APIResponseValidator`

`BOOK_SCHEMA` is a JSON Schema with `required` exactly the six book
keys, `additionalProperties: false`, `id`/`pageCount` integers with
`minimum: 1`, `title`/`description` strings with `minLength: 1`,
`excerpt` a string and `publishDate` a string whose `format: date-time`
annotation is not enforced, because `jsonschema.validate` is called
without a format checker.  `BOOKS_LIST_SCHEMA` is an array of
`BOOK_SCHEMA` items. -/

/-- The `required` list of `BOOK_SCHEMA`. -/
def requiredBookKeys : List String :=
  ["id", "title", "description", "pageCount", "excerpt", "publishDate"]

/-- The `properties` entry of `BOOK_SCHEMA` for key `k` applied to a
value, with `additionalProperties: false` folded in: any key outside
the six is rejected.  The jsonschema type checker does not treat
booleans as integers. -/
def schemaPropOk (k : String) (v : JVal) : Bool :=
  if k = "id" ∨ k = "pageCount" then
    match v with
    | .jInt n => 1 ≤ n
    | _ => false
  else if k = "title" ∨ k = "description" then
    match v with
    | .jStr s => 1 ≤ s.length
    | _ => false
  else if k = "excerpt" ∨ k = "publishDate" then
    match v with
    | .jStr _ => true
    | _ => false
  else false

/-- `jsonschema.validate(instance, BOOK_SCHEMA)` succeeds: the instance
is an object, every required key is present, and every present
association satisfies its property schema. -/
def bookSchemaOk (v : JVal) : Bool :=
  match v with
  | .jObj fs =>
    requiredBookKeys.all (fun k => (dictGet fs k).isSome) &&
    fs.all (fun p => schemaPropOk p.1 p.2)
  | _ => false

/-- `APIResponseValidator.validate_book_response`: `true` when the body
validates against `BOOK_SCHEMA`, `false` when `ValidationError` is
caught. -/
def validate_book_response (v : JVal) : Bool :=
  bookSchemaOk v

/-- `APIResponseValidator.validate_books_list_response`: `true` when the
body validates against `BOOKS_LIST_SCHEMA` (an array each of whose
items validates against `BOOK_SCHEMA`). -/
def validate_books_list_response (v : JVal) : Bool :=
  match v with
  | .jArr xs => xs.all (fun x => bookSchemaOk x)
  | _ => false

/-! ## Object-model check, pydantic `BookSchema`

`validate_book_data` builds `BookSchema(**book_data)`.  Pydantic (lax
mode) checks each declared field: missing fields and type mismatches
are errors; for `int` fields an integer is accepted and a string is
coerced when it reads as an integer literal, booleans are rejected; for
`str` fields only strings are accepted.  The `field_validator`s then
run on the typed value.  All field errors are gathered into one
`ValidationError`; extra keys are ignored (default pydantic config). -/

/-- Numeric value of a digit list, most significant first. -/
def natFromDigits (cs : List Char) : Nat :=
  cs.foldl (fun acc c => acc * 10 + (c.toNat - 48)) 0

/-- Pydantic lax coercion of a string to an integer: surrounding
whitespace stripped, an optional sign, then at least one digit. -/
def pyIntOfStr (s : String) : Option Int :=
  match stripList s.data with
  | '-' :: rest =>
    if rest ≠ [] ∧ allDigits rest then some (-(natFromDigits rest : Int)) else none
  | '+' :: rest =>
    if rest ≠ [] ∧ allDigits rest then some (natFromDigits rest : Int) else none
  | cs => if cs ≠ [] ∧ allDigits cs then some (natFromDigits cs : Int) else none

/-- Pydantic lax validation of an `int` field. -/
def pydInt (v : JVal) : Option Int :=
  match v with
  | .jInt n => some n
  | .jStr s => pyIntOfStr s
  | _ => none

/-- Pydantic lax validation of a `str` field. -/
def pydStr (v : JVal) : Option String :=
  match v with
  | .jStr s => some s
  | _ => none

/-- Errors of the `id` field: required, integer-typed, and the
`validate_id` field validator (`v <= 0` rejected). -/
def idErrors (fs : List (String × JVal)) : List String :=
  match dictGet fs "id" with
  | none => ["id: Field required"]
  | some v =>
    match pydInt v with
    | none => ["id: Input should be a valid integer"]
    | some n => if n ≤ 0 then ["id: Value error, Book ID must be positive"] else []

/-- Errors of the `title` field: required, string-typed, and the
`validate_title` field validator (empty or whitespace-only rejected). -/
def titleErrors (fs : List (String × JVal)) : List String :=
  match dictGet fs "title" with
  | none => ["title: Field required"]
  | some v =>
    match pydStr v with
    | none => ["title: Input should be a valid string"]
    | some s => if pyStrip s = "" then ["title: Value error, Title cannot be empty"] else []

/-- Errors of the `description` field, as for `title`. -/
def descriptionErrors (fs : List (String × JVal)) : List String :=
  match dictGet fs "description" with
  | none => ["description: Field required"]
  | some v =>
    match pydStr v with
    | none => ["description: Input should be a valid string"]
    | some s =>
      if pyStrip s = "" then ["description: Value error, Description cannot be empty"] else []

/-- Errors of the `pageCount` field: required, integer-typed, and the
`validate_page_count` field validator (`v <= 0` rejected). -/
def pageCountErrors (fs : List (String × JVal)) : List String :=
  match dictGet fs "pageCount" with
  | none => ["pageCount: Field required"]
  | some v =>
    match pydInt v with
    | none => ["pageCount: Input should be a valid integer"]
    | some n => if n ≤ 0 then ["pageCount: Value error, Page count must be positive"] else []

/-- Errors of the `excerpt` field: required and string-typed; the
`validate_excerpt` isinstance check never fires after typing. -/
def excerptErrors (fs : List (String × JVal)) : List String :=
  match dictGet fs "excerpt" with
  | none => ["excerpt: Field required"]
  | some v =>
    match pydStr v with
    | none => ["excerpt: Input should be a valid string"]
    | some _ => []

/-- Errors of the `publishDate` field: required, string-typed, and the
`validate_publish_date` field validator
(`datetime.fromisoformat(v.replace('Z', '+00:00'))` must succeed). -/
def publishDateErrors (fs : List (String × JVal)) : List String :=
  match dictGet fs "publishDate" with
  | none => ["publishDate: Field required"]
  | some v =>
    match pydStr v with
    | none => ["publishDate: Input should be a valid string"]
    | some s =>
      if isoParseableZ s then []
      else ["publishDate: Value error, Invalid date format. Expected ISO format"]

/-- All field errors of `BookSchema(**book_data)`, in declaration
order, as pydantic gathers them into a single `ValidationError`. -/
def bookSchemaFieldErrors (fs : List (String × JVal)) : List String :=
  idErrors fs ++ titleErrors fs ++ descriptionErrors fs ++
  pageCountErrors fs ++ excerptErrors fs ++ publishDateErrors fs

/-- `APIResponseValidator.validate_book_data`: `[]` when the model
constructs, otherwise the one-element list `[str(e)]` for the single
caught exception (whose text describes every failing field). -/
def validate_book_data (fs : List (String × JVal)) : List String :=
  match bookSchemaFieldErrors fs with
  | [] => []
  | errs => [String.intercalate "; " errs]

/-! ## Test data generator, `TestDataGenerator`

`random.randint(a, b)` is modelled as a function of an explicit seed
that always lands in `[a, b]`; Faker string and date outputs are the
fields of a draw record passed in explicitly. -/

/-- `random.randint(a, b)`: inclusive on both ends. -/
def randint (a b seed : Nat) : Nat :=
  a + seed % (b + 1 - a)

/-- One call's worth of randomness for `generate_book_data`: the two
`random.randint` seeds and the Faker outputs
(`catch_phrase`, `text(200)`, `text(500)`, `date_between` result). -/
structure BookDraw where
  idSeed : Nat
  pageSeed : Nat
  catchPhrase : String
  text200 : String
  text500 : String
  dateYear : Nat
  dateMonth : Nat
  dateDay : Nat

/-- The decimal digit character for `n < 10`. -/
def digitChar (n : Nat) : Char :=
  Char.ofNat (48 + n)

/-- `date.strftime('%Y-%m-%d')` for years below 10000: zero-padded
4-digit year, 2-digit month and day. -/
def strftimeYMD (y m d : Nat) : String :=
  ⟨[digitChar (y / 1000 % 10), digitChar (y / 100 % 10), digitChar (y / 10 % 10),
    digitChar (y % 10), '-', digitChar (m / 10 % 10), digitChar (m % 10), '-',
    digitChar (d / 10 % 10), digitChar (d % 10)]⟩

/-- What the Faker library guarantees about a draw and `datetime`
about `date_between('-10y', 'today')`: `catch_phrase` and `text` are
never empty or whitespace-only, and the drawn date is a real calendar
date with a four-digit year. -/
def fakerDrawOk (dr : BookDraw) : Bool :=
  pyStrip dr.catchPhrase ≠ "" && pyStrip dr.text200 ≠ "" &&
  dr.dateYear < 10000 && validYMD dr.dateYear dr.dateMonth dr.dateDay

/-- `TestDataGenerator.generate_book_data`: id from the argument or
`randint(1000, 9999)`, Faker title/description/excerpt,
`randint(50, 1000)` page count, and a `%Y-%m-%d` publish date. -/
def generate_book_data (dr : BookDraw) (book_id : Option Int) : List (String × JVal) :=
  let bid : Int :=
    match book_id with
    | some i => i
    | none => (randint 1000 9999 dr.idSeed : Nat)
  [("id", .jInt bid),
   ("title", .jStr dr.catchPhrase),
   ("description", .jStr dr.text200),
   ("pageCount", .jInt (randint 50 1000 dr.pageSeed : Nat)),
   ("excerpt", .jStr dr.text500),
   ("publishDate", .jStr (strftimeYMD dr.dateYear dr.dateMonth dr.dateDay))]

/-- `TestDataGenerator.generate_invalid_book_data`: starts from a valid
payload and applies the named corruption mode. -/
def generate_invalid_book_data (dr : BookDraw) (invalid_field : Option String) :
    List (String × JVal) :=
  let valid_data := generate_book_data dr none
  if invalid_field = some "missing_required" then
    dictRemove (dictRemove (dictRemove valid_data "title") "description") "pageCount"
  else if invalid_field = some "wrong_types" then
    dictSet (dictSet (dictSet valid_data "id" (.jStr "not_an_integer"))
      "pageCount" (.jStr "not_a_number")) "title" (.jInt 12345)
  else if invalid_field = some "empty_values" then
    dictSet (dictSet (dictSet valid_data "title" (.jStr ""))
      "description" (.jStr "")) "excerpt" (.jStr "")
  else if invalid_field = some "negative_values" then
    dictSet (dictSet valid_data "id" (.jInt (-1))) "pageCount" (.jInt (-100))
  else if invalid_field = some "invalid_date" then
    dictSet valid_data "publishDate" (.jStr "invalid-date-format")
  else
    dictSet (dictSet (dictSet valid_data "title" (.jStr ""))
      "pageCount" (.jInt (-50))) "publishDate" (.jStr "not-a-date")

/-- A named edge case, `{"name": ..., "data": ...}`. -/
structure EdgeCase where
  name : String
  data : List (String × JVal)

/-- The randomness consumed by `generate_edge_case_data`: the
`random.randint(1000, 9999)` seeds of the five cases that draw an id,
and `datetime.now()`'s date. -/
structure EdgeDraw where
  idSeed1 : Nat
  idSeed2 : Nat
  idSeed4 : Nat
  idSeed5 : Nat
  idSeed6 : Nat
  todayYear : Nat
  todayMonth : Nat
  todayDay : Nat

/-- The `special_chars` literal of the source. -/
def specialChars : String :=
  "침치칠칤칩칰@#$%^&*()_+-=[]\x7b\x7d|;':\",./<>?"

/-- The `unicode_text` literal of the source. -/
def unicodeText : String :=
  "Unicode: 擔먼봏疸뒪뎳 游깴 游 游닄"

/-- The `sql_injection` literal of the source. -/
def sqlInjection : String :=
  "'; DROP TABLE books; --"

/-- The `xss_attempt` literal of the source. -/
def xssAttempt : String :=
  "<script>alert('XSS')</script>"

/-- `TestDataGenerator.generate_edge_case_data`: the fixed list of six
named edge cases (very long strings, special characters, extreme
values, unicode, SQL injection, XSS). -/
def generate_edge_case_data (ed : EdgeDraw) : List EdgeCase :=
  let today := strftimeYMD ed.todayYear ed.todayMonth ed.todayDay
  [⟨"very_long_strings",
    [("id", .jInt (randint 1000 9999 ed.idSeed1 : Nat)),
     ("title", .jStr ⟨List.replicate 1000 'A'⟩),
     ("description", .jStr ⟨List.replicate 2000 'B'⟩),
     ("pageCount", .jInt 500),
     ("excerpt", .jStr ⟨List.replicate 5000 'C'⟩),
     ("publishDate", .jStr today)]⟩,
   ⟨"special_characters",
    [("id", .jInt (randint 1000 9999 ed.idSeed2 : Nat)),
     ("title", .jStr ("Book with " ++ specialChars)),
     ("description", .jStr ("Description with " ++ specialChars)),
     ("pageCount", .jInt 300),
     ("excerpt", .jStr ("Excerpt with " ++ specialChars)),
     ("publishDate", .jStr today)]⟩,
   ⟨"extreme_values",
    [("id", .jInt 999999999),
     ("title", .jStr "Book with extreme values"),
     ("description", .jStr "Description"),
     ("pageCount", .jInt 999999),
     ("excerpt", .jStr "Excerpt"),
     ("publishDate", .jStr "1900-01-01T00:00:00.000Z")]⟩,
   ⟨"unicode_characters",
    [("id", .jInt (randint 1000 9999 ed.idSeed4 : Nat)),
     ("title", .jStr unicodeText),
     ("description", .jStr ("Description with " ++ unicodeText)),
     ("pageCount", .jInt 400),
     ("excerpt", .jStr ("Excerpt with " ++ unicodeText)),
     ("publishDate", .jStr today)]⟩,
   ⟨"sql_injection",
    [("id", .jInt (randint 1000 9999 ed.idSeed5 : Nat)),
     ("title", .jStr sqlInjection),
     ("description", .jStr ("Description with " ++ sqlInjection)),
     ("pageCount", .jInt 250),
     ("excerpt", .jStr ("Excerpt with " ++ sqlInjection)),
     ("publishDate", .jStr today)]⟩,
   ⟨"xss_attempt",
    [("id", .jInt (randint 1000 9999 ed.idSeed6 : Nat)),
     ("title", .jStr xssAttempt),
     ("description", .jStr ("Description with " ++ xssAttempt)),
     ("pageCount", .jInt 350),
     ("excerpt", .jStr ("Excerpt with " ++ xssAttempt)),
     ("publishDate", .jStr today)]⟩]

/-- `TestDataGenerator.generate_multiple_books`: one fresh draw per
book, `count` books. -/
def generate_multiple_books (draws : Nat → BookDraw) (count : Nat) :
    List (List (String × JVal)) :=
  (List.range count).map (fun i => generate_book_data (draws i) none)

/-- The fixture bundle persisted to / loaded from `test_books.json`. -/
structure TestBundle where
  valid_books : List (List (String × JVal))
  invalid_books : List (List (String × JVal))
  edge_cases : List EdgeCase

/-- The randomness consumed by one `save_test_data_to_file` or
`_generate_fallback_data` call. -/
structure GenDraws where
  bulk : Nat → BookDraw
  inv1 : BookDraw
  inv2 : BookDraw
  inv3 : BookDraw
  edge : EdgeDraw

/-- `TestDataGenerator.save_test_data_to_file`: the bundle written to
the fixture file — 5 generated books, the three named invalid
payloads, and the edge-case list. -/
def save_test_data_to_file (g : GenDraws) : TestBundle :=
  { valid_books := generate_multiple_books g.bulk 5,
    invalid_books :=
      [generate_invalid_book_data g.inv1 (some "missing_required"),
       generate_invalid_book_data g.inv2 (some "wrong_types"),
       generate_invalid_book_data g.inv3 (some "empty_values")],
    edge_cases := generate_edge_case_data g.edge }

/-- `TestDataGenerator._generate_fallback_data`: 3 valid books, the two
named invalid payloads, and only the first 2 edge cases. -/
def generate_fallback_data (g : GenDraws) : TestBundle :=
  { valid_books := generate_multiple_books g.bulk 3,
    invalid_books :=
      [generate_invalid_book_data g.inv1 (some "missing_required"),
       generate_invalid_book_data g.inv2 (some "wrong_types")],
    edge_cases := (generate_edge_case_data g.edge).take 2 }

/-- State of the fixture file when `load_test_data_from_file` runs:
missing, present but failing to read/parse, or readable with a stored
bundle. -/
inductive FileState where
  | absent
  | unreadable
  | readable (data : TestBundle)

/-- What a load call produced: the bundle, whether
`save_test_data_to_file` ran to completion, and whether the in-memory
fallback bundle was used. -/
structure LoadResult where
  bundle : TestBundle
  persisted : Bool
  usedFallback : Bool

/-- `TestDataGenerator.load_test_data_from_file`: a readable file is
returned as-is; an absent file triggers `save_test_data_to_file` and a
re-read (the fallback only when that persistence/re-read raises); an
existing but unreadable file raises inside the `try`, which is caught
and answered with `_generate_fallback_data`. -/
def load_test_data_from_file (fs : FileState) (persistOk : Bool) (g : GenDraws) :
    LoadResult :=
  match fs with
  | .readable d => ⟨d, false, false⟩
  | .absent =>
    if persistOk then ⟨save_test_data_to_file g, true, false⟩
    else ⟨generate_fallback_data g, false, true⟩
  | .unreadable => ⟨generate_fallback_data g, false, true⟩

/-! ## Spec-side conformance predicates

These restate, in the specification's own words, what the structural
schema check and the object-model check are claimed to accept; the
theorems below compare them with the source-derived validators. -/

/-- Spec wording of the per-key structural constraint: id and pageCount
integers at least 1, title and description non-empty strings, excerpt a
string, publishDate a string; any key outside the six is an additional
key and not permitted. -/
def specFieldOk (k : String) (v : JVal) : Bool :=
  if k = "id" then
    match v with
    | .jInt n => 1 ≤ n
    | _ => false
  else if k = "title" then
    match v with
    | .jStr s => s ≠ ""
    | _ => false
  else if k = "description" then
    match v with
    | .jStr s => s ≠ ""
    | _ => false
  else if k = "pageCount" then
    match v with
    | .jInt n => 1 ≤ n
    | _ => false
  else if k = "excerpt" then
    match v with
    | .jStr _ => true
    | _ => false
  else if k = "publishDate" then
    match v with
    | .jStr _ => true
    | _ => false
  else false

/-- Spec wording of single-object conformance: an object with precisely
the keys \x7bid, title, description, pageCount, excerpt, publishDate\x7d
— every one of the six present and no other key — each satisfying its
field constraint. -/
def conformsBookSpec (v : JVal) : Bool :=
  match v with
  | .jObj fs =>
    requiredBookKeys.all (fun k => fs.any (fun p => p.1 == k)) &&
    fs.all (fun p => specFieldOk p.1 p.2)
  | _ => false

/-- Spec wording of the `id` object-model constraint: present and, as
the integer pydantic extracts, strictly positive. -/
def idOk (fs : List (String × JVal)) : Bool :=
  match dictGet fs "id" with
  | some v =>
    (match pydInt v with
     | some n => 0 < n
     | none => false)
  | none => false

/-- Spec wording of the `title` constraint: a string, non-empty after
trimming. -/
def titleOk (fs : List (String × JVal)) : Bool :=
  match dictGet fs "title" with
  | some v =>
    (match pydStr v with
     | some s => pyStrip s ≠ ""
     | none => false)
  | none => false

/-- Spec wording of the `description` constraint: a string, non-empty
after trimming. -/
def descriptionOk (fs : List (String × JVal)) : Bool :=
  match dictGet fs "description" with
  | some v =>
    (match pydStr v with
     | some s => pyStrip s ≠ ""
     | none => false)
  | none => false

/-- Spec wording of the `pageCount` constraint: present and strictly
positive. -/
def pageCountOk (fs : List (String × JVal)) : Bool :=
  match dictGet fs "pageCount" with
  | some v =>
    (match pydInt v with
     | some n => 0 < n
     | none => false)
  | none => false

/-- Spec wording of the `excerpt` constraint: a string. -/
def excerptOk (fs : List (String × JVal)) : Bool :=
  match dictGet fs "excerpt" with
  | some v => (pydStr v).isSome
  | none => false

/-- Spec wording of the `publishDate` constraint: a string that is
ISO-8601-parseable, a literal `Z` accepted as UTC offset. -/
def publishDateOk (fs : List (String × JVal)) : Bool :=
  match dictGet fs "publishDate" with
  | some v =>
    (match pydStr v with
     | some s => isoParseableZ s
     | none => false)
  | none => false

/-- Spec wording of full object-model validity: every field constraint
holds. -/
def bookConstraintsHold (fs : List (String × JVal)) : Bool :=
  idOk fs && titleOk fs && descriptionOk fs &&
  pageCountOk fs && excerptOk fs && publishDateOk fs

/-! ## Concrete sample inputs used by witnesses -/

/-- A concrete draw standing for one set of Faker/random outputs. -/
def sampleDraw : BookDraw :=
  ⟨0, 0, "Test title", "Test description", "Test excerpt", 2020, 5, 17⟩

/-- A concrete edge-case draw. -/
def sampleEdgeDraw : EdgeDraw :=
  ⟨0, 1, 2, 3, 4, 2025, 1, 2⟩

/-- A concrete generator-randomness record. -/
def sampleGenDraws : GenDraws :=
  ⟨fun _ => sampleDraw, sampleDraw, sampleDraw, sampleDraw, sampleEdgeDraw⟩

/-- A concrete fully valid book payload. -/
def sampleBook : List (String × JVal) :=
  [("id", .jInt 1000), ("title", .jStr "T"), ("description", .jStr "D"),
   ("pageCount", .jInt 10), ("excerpt", .jStr "E"), ("publishDate", .jStr "2023-01-01")]

/-- The sample payload with its `excerpt` key removed. -/
def sampleBookNoExcerpt : List (String × JVal) :=
  dictRemove sampleBook "excerpt"

/-! ## Assertion helpers, `ResponseAsserter.assert_book_content`

The assertion walks the expected payload's items; a field absent from
the actual payload is skipped.  The result is `some true` when every
compared field matches, `some false` when an `assert` fires, and
`none` when Python itself raises before the assert (a non-string value
reaching `'T' in v` / `v.split('T')`). -/

/-- The date-only portion used by the comparison:
`v.split('T')[0] if 'T' in v else v`. -/
def dateOnly (s : String) : String :=
  if s.data.contains 'T' then ⟨s.data.takeWhile (fun c => c ≠ 'T')⟩ else s

/-- `v.split('T')[0] if 'T' in v else v` on an arbitrary value:
strings are truncated; a list or dict not containing/keyed by `'T'`
passes through (the `in` test succeeds and picks the else branch);
anything else raises (`none`). -/
def pyDateNorm (v : JVal) : Option JVal :=
  match v with
  | .jStr s => some (.jStr (dateOnly s))
  | .jArr xs => if xs.contains (.jStr "T") then none else some (.jArr xs)
  | .jObj fs => if fs.any (fun p => p.1 = "T") then none else some (.jObj fs)
  | _ => none

/-- The per-field comparison of `assert_book_content`: `publishDate`
compares date-normalised values, every other field compares raw
values. -/
def fieldCheck (field : String) (actualVal expectedVal : JVal) : Option Bool :=
  if field = "publishDate" then
    match pyDateNorm expectedVal, pyDateNorm actualVal with
    | some ed, some ad => some (ad == ed)
    | _, _ => none
  else some (actualVal == expectedVal)

/-- `ResponseAsserter.assert_book_content` over the expected payload's
items in order; the first failing assert stops the walk. -/
def assert_book_content (book_data expected_data : List (String × JVal)) : Option Bool :=
  match expected_data with
  | [] => some true
  | (field, ev) :: rest =>
    match dictGet book_data field with
    | none => assert_book_content book_data rest
    | some av =>
      match fieldCheck field av ev with
      | none => none
      | some false => some false
      | some true => assert_book_content book_data rest

/-! ## HTTP client, `APIClient._make_request`

The session/transport layer is abstracted into its visible outcome:
either a completed HTTP response (any status) or one of the three
exception classes the `except` arms catch. -/

/-- A completed HTTP response. -/
structure HttpResponse where
  status : Nat
  headers : List (String × String)
  body : String

/-- What the underlying `session.request` call did. -/
inductive TransportOutcome where
  | completed (resp : HttpResponse)
  | timeout
  | connectionError
  | requestError (msg : String)

/-- The exception `_make_request` lets escape to its caller. -/
inductive RequestFailure where
  | timeout
  | connectionError
  | requestError (msg : String)

/-- `APIClient._make_request`: a completed response is returned
whatever its status (the `>= 400` branch only logs a warning);
`Timeout`, `ConnectionError` and `RequestException` are logged and
re-raised. -/
def make_request (o : TransportOutcome) : Except RequestFailure HttpResponse :=
  match o with
  | .completed resp =>
    if 400 ≤ resp.status then
      .ok resp
    else
      .ok resp
  | .timeout => .error .timeout
  | .connectionError => .error .connectionError
  | .requestError m => .error (.requestError m)

/-! ## Configuration, `Config.validate_config` -/

/-- The settings `validate_config` reads. -/
structure Config where
  API_BASE_URL : String
  API_TIMEOUT : Int
  TEST_TIMEOUT : Int
  MAX_RETRIES : Int
  RETRY_DELAY : Int
  LOG_LEVEL : String

/-- The `valid_log_levels` list of the source. -/
def validLogLevels : List String :=
  ["DEBUG", "INFO", "WARNING", "ERROR", "CRITICAL"]

/-- `Config.validate_config`: the four checks in source order, `false`
at the first failure, `true` otherwise; the `try/except` can only
return `false`.  `startswith(('http://', 'https://'))` is the
disjunction of the two prefix tests. -/
def validate_config (c : Config) : Bool :=
  if ¬ (c.API_BASE_URL.startsWith "http://" = true ∨
        c.API_BASE_URL.startsWith "https://" = true) then
    false
  else if c.API_TIMEOUT ≤ 0 ∨ c.TEST_TIMEOUT ≤ 0 then
    false
  else if c.MAX_RETRIES < 0 ∨ c.RETRY_DELAY < 0 then
    false
  else if c.LOG_LEVEL ∉ validLogLevels then
    false
  else
    true

/-! ## Theorems -/

/-- C4: in `APIClient._make_request`, network-level failures (timeout,
connection error, other request exceptions) are re-raised to the caller,
while every completed HTTP response — including 4xx/5xx statuses — is
returned as an ordinary response value, never converted into an
exception. -/
theorem make_request_error_propagation :
    (∀ resp : HttpResponse, make_request (.completed resp) = .ok resp) ∧
    make_request .timeout = .error .timeout ∧
    make_request .connectionError = .error .connectionError ∧
    (∀ m : String, make_request (.requestError m) = .error (.requestError m)) := by
  refine ⟨fun resp => ?_, rfl, rfl, fun m => rfl⟩
  show (if 400 ≤ resp.status then Except.ok resp else Except.ok resp) = Except.ok resp
  split <;> rfl

/-- C8: `Config.validate_config` returns `false` exactly when the base
URL starts with neither `http://` nor `https://`, or a timeout is not
positive, or a retry setting is negative, or the log level is outside
the fixed enumerated set. -/
theorem validate_config_false_iff (c : Config) :
    validate_config c = false ↔
      (¬ (c.API_BASE_URL.startsWith "http://" = true ∨
          c.API_BASE_URL.startsWith "https://" = true) ∨
       c.API_TIMEOUT ≤ 0 ∨ c.TEST_TIMEOUT ≤ 0 ∨
       c.MAX_RETRIES < 0 ∨ c.RETRY_DELAY < 0 ∨
       c.LOG_LEVEL ∉ validLogLevels) := by
  unfold validate_config
  split
  next h1 => exact iff_of_true rfl (Or.inl h1)
  next h1 =>
    split
    next h2 =>
      exact iff_of_true rfl (Or.inr (h2.elim Or.inl (fun h => Or.inr (Or.inl h))))
    next h2 =>
      split
      next h3 =>
        exact iff_of_true rfl
          (Or.inr (Or.inr (Or.inr (h3.elim Or.inl (fun h => Or.inr (Or.inl h))))))
      next h3 =>
        split
        next h4 =>
          exact iff_of_true rfl (Or.inr (Or.inr (Or.inr (Or.inr (Or.inr h4)))))
        next h4 =>
          refine iff_of_false (fun h => Bool.noConfusion h) (fun hp => ?_)
          exact hp.elim h1 (fun hp => hp.elim (fun h => h2 (Or.inl h))
            (fun hp => hp.elim (fun h => h2 (Or.inr h))
              (fun hp => hp.elim (fun h => h3 (Or.inl h))
                (fun hp => hp.elim (fun h => h3 (Or.inr h)) h4))))

/-- C5 counterexample: with the fixture file present but unreadable and
persistence perfectly possible, `load_test_data_from_file` neither
regenerates-and-persists nor reloads — it answers with the in-memory
fallback bundle at once, contradicting the claim that the fallback is
returned only when persistence itself fails. -/
theorem load_unreadable_goes_straight_to_fallback :
    (load_test_data_from_file .unreadable true sampleGenDraws).usedFallback = true ∧
    (load_test_data_from_file .unreadable true sampleGenDraws).persisted = false ∧
    (load_test_data_from_file .unreadable true sampleGenDraws).bundle =
      generate_fallback_data sampleGenDraws :=
  ⟨rfl, rfl, rfl⟩

/-- C5 amended: a readable fixture file is returned as loaded; an absent
file triggers regeneration with persistence, the fallback appearing only
when that persistence fails; an existing but unreadable file is answered
directly with the in-memory fallback bundle (3 valid books, 2 invalid
books, first 2 edge cases) — so loading always yields a bundle. -/
theorem load_test_data_total_behaviour :
    (∀ (d : TestBundle) (pOk : Bool) (g : GenDraws),
      load_test_data_from_file (.readable d) pOk g = ⟨d, false, false⟩) ∧
    (∀ g : GenDraws,
      load_test_data_from_file .absent true g = ⟨save_test_data_to_file g, true, false⟩) ∧
    (∀ g : GenDraws,
      load_test_data_from_file .absent false g = ⟨generate_fallback_data g, false, true⟩) ∧
    (∀ (pOk : Bool) (g : GenDraws),
      load_test_data_from_file .unreadable pOk g = ⟨generate_fallback_data g, false, true⟩) ∧
    (∀ g : GenDraws,
      (generate_fallback_data g).valid_books.length = 3 ∧
      (generate_fallback_data g).invalid_books.length = 2 ∧
      (generate_fallback_data g).edge_cases.length = 2) :=
  ⟨fun _ _ _ => rfl, fun _ => rfl, fun _ => rfl, fun _ _ => rfl,
   fun _ => ⟨rfl, rfl, rfl⟩⟩

/-- C7: persisting a fixture bundle and reloading the written file
yields a bundle with 5 valid books, 3 invalid books and 6 edge cases. -/
theorem save_load_roundtrip_counts (g : GenDraws) (pOk : Bool) (g2 : GenDraws) :
    (load_test_data_from_file (.readable (save_test_data_to_file g)) pOk g2).bundle.valid_books.length = 5 ∧
    (load_test_data_from_file (.readable (save_test_data_to_file g)) pOk g2).bundle.invalid_books.length = 3 ∧
    (load_test_data_from_file (.readable (save_test_data_to_file g)) pOk g2).bundle.edge_cases.length = 6 :=
  ⟨rfl, rfl, rfl⟩

/-- C9: `validate_book_data` never returns more than one message: it is
either empty or the one-element list holding the string form of the
single caught exception, however many fields are in violation. -/
theorem validate_book_data_at_most_one_message (fs : List (String × JVal)) :
    (validate_book_data fs).length ≤ 1 ∧
    (validate_book_data fs = [] ∨ ∃ m, validate_book_data fs = [m]) := by
  unfold validate_book_data
  cases h : bookSchemaFieldErrors fs with
  | nil => exact ⟨by simp, Or.inl rfl⟩
  | cons e rest => exact ⟨by simp, Or.inr ⟨_, rfl⟩⟩

/-- C10: `assert_book_content` skips every expected field that is
absent from the actual payload, so it succeeds whenever the actual
payload contains none of the expected keys. -/
theorem assert_book_content_skips_missing (book_data expected : List (String × JVal))
    (h : ∀ p ∈ expected, dictGet book_data p.1 = none) :
    assert_book_content book_data expected = some true := by
  induction expected with
  | nil => rfl
  | cons p rest ih =>
    obtain ⟨field, ev⟩ := p
    unfold assert_book_content
    rw [h ⟨field, ev⟩ (by simp)]
    exact ih (fun q hq => h q (by simp [hq]))

/-- Witness for C10 at a concrete input: the empty actual payload
satisfies any expected payload. -/
theorem assert_book_content_skips_missing_witness :
    assert_book_content [] [("title", JVal.jStr "x"), ("publishDate", JVal.jInt 3)] = some true :=
  assert_book_content_skips_missing [] [("title", JVal.jStr "x"), ("publishDate", JVal.jInt 3)]
    (fun _ _ => rfl)

/-- C6: `assert_book_content` compares `publishDate` by truncating both
sides to their date-only portion before testing equality — so expected
`2023-01-01` matches actual `2023-01-01T00:00:00.000Z` — while every
other field is compared by exact equality. -/
theorem assert_book_content_date_truncation :
    (∀ (f : String) (av ev : JVal), f ≠ "publishDate" → fieldCheck f av ev = some (av == ev)) ∧
    (∀ a e : String,
      fieldCheck "publishDate" (.jStr a) (.jStr e) = some (dateOnly a == dateOnly e)) ∧
    assert_book_content [("publishDate", JVal.jStr "2023-01-01T00:00:00.000Z")]
      [("publishDate", JVal.jStr "2023-01-01")] = some true := by
  refine ⟨fun f av ev hf => ?_, fun a e => rfl, by decide⟩
  unfold fieldCheck
  rw [if_neg hf]

/-- Witness for C6: the exact-equality arm applied at a concrete
non-date field. -/
theorem assert_book_content_date_truncation_witness :
    fieldCheck "title" (JVal.jStr "a") (JVal.jStr "b") =
      some (JVal.jStr "a" == JVal.jStr "b") :=
  assert_book_content_date_truncation.1 "title" (JVal.jStr "a") (JVal.jStr "b") (by decide)

/-- A key is found by `dictGet` exactly when some association carries
it. -/
theorem dictGet_isSome_eq_any (fs : List (String × JVal)) (k : String) :
    (dictGet fs k).isSome = fs.any (fun p => p.1 == k) := by
  induction fs with
  | nil => rfl
  | cons p rest ih =>
    obtain ⟨k2, v⟩ := p
    unfold dictGet
    by_cases h : k2 = k
    · simp [h]
    · simp [h, ih]

/-- A non-empty string is one of length at least 1. -/
theorem one_le_length_iff_ne_empty (s : String) : 1 ≤ s.length ↔ s ≠ "" := by
  obtain ⟨data⟩ := s
  cases data with
  | nil => simp [String.length]
  | cons c cs => simp [String.length, String.ext_iff]

/-- The per-key schema of `BOOK_SCHEMA` agrees with the spec's wording
of the per-key constraint. -/
theorem schemaPropOk_eq_specFieldOk (k : String) (v : JVal) :
    schemaPropOk k v = specFieldOk k v := by
  have hstr : ∀ s : String, (decide (1 ≤ s.length)) = !decide (s = "") := by
    intro s
    simp only [← decide_not]
    rw [decide_eq_decide]
    exact one_le_length_iff_ne_empty s
  unfold schemaPropOk specFieldOk
  split_ifs <;>
    first
      | rfl
      | simp_all

/-- The spec-side single-object conformance predicate coincides with
the `BOOK_SCHEMA` validation of the source. -/
theorem conformsBookSpec_eq (v : JVal) : conformsBookSpec v = bookSchemaOk v := by
  cases v with
  | jObj fs =>
    unfold conformsBookSpec bookSchemaOk
    simp only [dictGet_isSome_eq_any, schemaPropOk_eq_specFieldOk]
  | jNull => rfl
  | jBool b => rfl
  | jInt n => rfl
  | jStr s => rfl
  | jArr xs => rfl

/-- C2: the structural schema check returns `true` exactly on bodies
conforming to the fixed schema — a single object with precisely the six
book keys and well-typed values, or an array each of whose elements so
conforms; in particular an array with an element lacking `excerpt` is
rejected. -/
theorem structural_schema_check_iff_conforms :
    (∀ v, validate_book_response v = true ↔ conformsBookSpec v = true) ∧
    (∀ v, validate_books_list_response v = true ↔
      ∃ xs, v = JVal.jArr xs ∧ ∀ x ∈ xs, conformsBookSpec x = true) ∧
    (∀ (xs : List JVal) (x : JVal), x ∈ xs → hasKey x "excerpt" = false →
      validate_books_list_response (JVal.jArr xs) = false) := by
  have hbs : ∀ v, bookSchemaOk v = conformsBookSpec v :=
    fun v => (conformsBookSpec_eq v).symm
  refine ⟨fun v => by unfold validate_book_response; rw [hbs], ?_, ?_⟩
  · intro v
    cases v with
    | jArr xs => simp [validate_books_list_response, List.all_eq_true, hbs]
    | jNull => simp [validate_books_list_response]
    | jBool b => simp [validate_books_list_response]
    | jInt n => simp [validate_books_list_response]
    | jStr s => simp [validate_books_list_response]
    | jObj fs => simp [validate_books_list_response]
  · intro xs x hmem hkey
    have hx : bookSchemaOk x = false := by
      cases x with
      | jObj fs =>
        have hkey2 : (dictGet fs "excerpt").isSome = false := hkey
        unfold bookSchemaOk
        simp [requiredBookKeys, hkey2]
      | jNull => rfl
      | jBool b => rfl
      | jInt n => rfl
      | jStr s => rfl
      | jArr ys => rfl
    have : ¬ (validate_books_list_response (JVal.jArr xs) = true) := by
      simp only [validate_books_list_response, List.all_eq_true]
      intro hall
      have := hall x hmem
      rw [hx] at this
      exact Bool.noConfusion this
    exact Bool.eq_false_iff.mpr (fun h => this h)

/-- Witness for C2 at a concrete input: a one-element array whose
element lacks `excerpt` fails the list check. -/
theorem structural_schema_check_iff_conforms_witness :
    validate_books_list_response (JVal.jArr [JVal.jObj sampleBookNoExcerpt]) = false :=
  structural_schema_check_iff_conforms.2.2 [JVal.jObj sampleBookNoExcerpt]
    (JVal.jObj sampleBookNoExcerpt) (by simp) (by decide)

/-- The `id` field contributes no error exactly when the spec's id
constraint holds. -/
theorem idErrors_nil_iff (fs : List (String × JVal)) :
    idErrors fs = [] ↔ idOk fs = true := by
  unfold idErrors idOk
  cases hg : dictGet fs "id" with
  | none => simp
  | some v =>
    cases hp : pydInt v with
    | none => simp [hp]
    | some n =>
      by_cases h : n ≤ 0 <;> simp [hp, h, decide_eq_true_eq] <;> omega

/-- The `title` field contributes no error exactly when the spec's
title constraint holds. -/
theorem titleErrors_nil_iff (fs : List (String × JVal)) :
    titleErrors fs = [] ↔ titleOk fs = true := by
  unfold titleErrors titleOk
  cases hg : dictGet fs "title" with
  | none => simp
  | some v =>
    cases hp : pydStr v with
    | none => simp [hp]
    | some s => by_cases h : pyStrip s = "" <;> simp [hp, h]

/-- The `description` field contributes no error exactly when the
spec's description constraint holds. -/
theorem descriptionErrors_nil_iff (fs : List (String × JVal)) :
    descriptionErrors fs = [] ↔ descriptionOk fs = true := by
  unfold descriptionErrors descriptionOk
  cases hg : dictGet fs "description" with
  | none => simp
  | some v =>
    cases hp : pydStr v with
    | none => simp [hp]
    | some s => by_cases h : pyStrip s = "" <;> simp [hp, h]

/-- The `pageCount` field contributes no error exactly when the spec's
page-count constraint holds. -/
theorem pageCountErrors_nil_iff (fs : List (String × JVal)) :
    pageCountErrors fs = [] ↔ pageCountOk fs = true := by
  unfold pageCountErrors pageCountOk
  cases hg : dictGet fs "pageCount" with
  | none => simp
  | some v =>
    cases hp : pydInt v with
    | none => simp [hp]
    | some n =>
      by_cases h : n ≤ 0 <;> simp [hp, h, decide_eq_true_eq] <;> omega

/-- The `excerpt` field contributes no error exactly when the spec's
excerpt constraint holds. -/
theorem excerptErrors_nil_iff (fs : List (String × JVal)) :
    excerptErrors fs = [] ↔ excerptOk fs = true := by
  unfold excerptErrors excerptOk
  cases hg : dictGet fs "excerpt" with
  | none => simp
  | some v => cases hp : pydStr v <;> simp [hp]

/-- The `publishDate` field contributes no error exactly when the
spec's publish-date constraint holds. -/
theorem publishDateErrors_nil_iff (fs : List (String × JVal)) :
    publishDateErrors fs = [] ↔ publishDateOk fs = true := by
  unfold publishDateErrors publishDateOk
  cases hg : dictGet fs "publishDate" with
  | none => simp
  | some v =>
    cases hp : pydStr v with
    | none => simp [hp]
    | some s => cases h : isoParseableZ s <;> simp [hp, h]

/-- C3: for every input dictionary the object-model check returns an
empty list exactly when every field constraint holds (id > 0, title and
description non-empty after trimming, pageCount > 0, excerpt a string,
publishDate ISO-8601-parseable with a literal Z accepted); totality of
the embedded functions models that neither it nor the structural checks
raise to the caller. -/
theorem validate_book_data_empty_iff (fs : List (String × JVal)) :
    validate_book_data fs = [] ↔ bookConstraintsHold fs = true := by
  have h0 : validate_book_data fs = [] ↔ bookSchemaFieldErrors fs = [] := by
    unfold validate_book_data
    cases h : bookSchemaFieldErrors fs <;> simp
  rw [h0]
  unfold bookSchemaFieldErrors bookConstraintsHold
  simp only [List.append_eq_nil, Bool.and_eq_true, idErrors_nil_iff, titleErrors_nil_iff,
    descriptionErrors_nil_iff, pageCountErrors_nil_iff, excerptErrors_nil_iff,
    publishDateErrors_nil_iff]

/-- Each `%` digit extracted by `strftimeYMD` parses back to itself. -/
theorem dv_digitChar_mod (x : Nat) : dv (digitChar (x % 10)) = some (x % 10) := by
  have h : x % 10 < 10 := Nat.mod_lt x (by norm_num)
  revert h
  generalize x % 10 = k
  intro h
  interval_cases k <;> decide

/-- Digit characters are never the letter `Z`. -/
theorem digitChar_mod_ne_Z (x : Nat) : digitChar (x % 10) ≠ 'Z' := by
  have h : x % 10 < 10 := Nat.mod_lt x (by norm_num)
  revert h
  generalize x % 10 = k
  intro h
  interval_cases k <;> decide

/-- The dash separator is not the letter `Z`. -/
theorem dash_ne_Z : ('-' : Char) ≠ 'Z' := by decide

/-- No month has more than 31 days. -/
theorem daysInMonth_le (y m : Nat) : daysInMonth y m ≤ 31 := by
  unfold daysInMonth
  split_ifs <;> omega

/-- A `%Y-%m-%d`-formatted date contains no `Z`, so the `Z`
replacement leaves it unchanged. -/
theorem replaceZ_strftime (y m d : Nat) :
    replaceZ (strftimeYMD y m d).data = (strftimeYMD y m d).data := by
  show replaceZ [digitChar (y / 1000 % 10), digitChar (y / 100 % 10), digitChar (y / 10 % 10),
      digitChar (y % 10), '-', digitChar (m / 10 % 10), digitChar (m % 10), '-',
      digitChar (d / 10 % 10), digitChar (d % 10)] =
    [digitChar (y / 1000 % 10), digitChar (y / 100 % 10), digitChar (y / 10 % 10),
      digitChar (y % 10), '-', digitChar (m / 10 % 10), digitChar (m % 10), '-',
      digitChar (d / 10 % 10), digitChar (d % 10)]
  simp [replaceZ, digitChar_mod_ne_Z, dash_ne_Z]

/-- A `%Y-%m-%d`-formatted real calendar date with four-digit year is
accepted by the publish-date validator. -/
theorem iso_strftime (y m d : Nat) (hy : y < 10000) (hv : validYMD y m d = true) :
    isoParseableZ (strftimeYMD y m d) = true := by
  have hv2 := hv
  simp only [validYMD, Bool.and_eq_true, decide_eq_true_eq] at hv2
  obtain ⟨⟨⟨⟨h1y, h1m⟩, h2m⟩, h1d⟩, h2d⟩ := hv2
  have hdm : d ≤ 31 := le_trans h2d (daysInMonth_le y m)
  unfold isoParseableZ
  rw [replaceZ_strftime]
  show fromisoformatOk [digitChar (y / 1000 % 10), digitChar (y / 100 % 10),
      digitChar (y / 10 % 10), digitChar (y % 10), '-', digitChar (m / 10 % 10),
      digitChar (m % 10), '-', digitChar (d / 10 % 10), digitChar (d % 10)] = true
  have hY : ((y / 1000 % 10 * 10 + y / 100 % 10) * 10 + y / 10 % 10) * 10 + y % 10 = y := by
    omega
  have hM : m / 10 % 10 * 10 + m % 10 = m := by omega
  have hD : d / 10 % 10 * 10 + d % 10 = d := by omega
  simp only [fromisoformatOk, parseDate, dv_digitChar_mod, hY, hM, hD]
  simp [hv, timeOk]

/-- C1: every payload produced by `generate_book_data` with no explicit
book id — under the Faker library's guarantees that titles and texts
are non-blank and drawn dates are real four-digit-year dates — passes
the object-model check with an empty violation list. -/
theorem generated_book_passes_object_model (dr : BookDraw) (h : fakerDrawOk dr = true) :
    validate_book_data (generate_book_data dr none) = [] := by
  simp only [fakerDrawOk, Bool.and_eq_true, decide_eq_true_eq] at h
  obtain ⟨⟨⟨hcp, ht⟩, hy⟩, hv⟩ := h
  have hiso : isoParseableZ (strftimeYMD dr.dateYear dr.dateMonth dr.dateDay) = true :=
    iso_strftime _ _ _ hy hv
  have e1 : idErrors (generate_book_data dr none) = [] := by
    simp [idErrors, generate_book_data, dictGet, randint, pydInt]
    omega
  have e2 : titleErrors (generate_book_data dr none) = [] := by
    simp [titleErrors, generate_book_data, dictGet, pydStr, hcp]
  have e3 : descriptionErrors (generate_book_data dr none) = [] := by
    simp [descriptionErrors, generate_book_data, dictGet, pydStr, ht]
  have e4 : pageCountErrors (generate_book_data dr none) = [] := by
    simp [pageCountErrors, generate_book_data, dictGet, randint, pydInt]
    omega
  have e5 : excerptErrors (generate_book_data dr none) = [] := by
    simp [excerptErrors, generate_book_data, dictGet, pydStr]
  have e6 : publishDateErrors (generate_book_data dr none) = [] := by
    simp [publishDateErrors, generate_book_data, dictGet, pydStr, hiso]
  have hall : bookSchemaFieldErrors (generate_book_data dr none) = [] := by
    unfold bookSchemaFieldErrors
    rw [e1, e2, e3, e4, e5, e6]
    rfl
  unfold validate_book_data
  rw [hall]

/-- Witness for C1 at a concrete draw. -/
theorem generated_book_passes_object_model_witness :
    fakerDrawOk sampleDraw = true ∧
    validate_book_data (generate_book_data sampleDraw none) = [] :=
  ⟨by decide, generated_book_passes_object_model sampleDraw (by decide)⟩
